import Mathlib

/-!
Verification development for `check-domains` (`src/main.rs`).

The program probes a list of domains over TLS with a fixed pool of
`WORKERS = 50` tokio worker tasks fed by bounded mpsc channels, dispatched
round-robin by `main`, and classifies handshake failures whose raw
OpenSSL error code is 5 as "blocked".

Shallow embedding conventions:
* `Domain` mirrors the Rust struct; the `f64` field `page_rank` is
  represented by its decimal rendering (a `String`), since every claim
  about it concerns only the text that `Display` emits.
* Network effects are an explicit environment `Net`: `tcpConnect` maps the
  `"<domain>:443"` host string to the result of `StdTcpStream::connect`,
  and `tlsConnect` maps the SNI domain name to the outcome of
  `SslConnector::connect` (`TlsResult.err c` carries, when the error
  source downcasts to `openssl::ssl::Error`, the raw value of `code()`).
* The worker loop, the dispatch loop of `main`, and the process lifecycle
  are modelled as pure functions producing the queue contents, the emitted
  stdout/stderr lines, and the `Result` values of the source.
* Run-level output lists are the per-worker concatenation; interleaving of
  concurrently printed lines is not modelled, only their content.
* Tokio semantics used by the lifecycle model: returning early from the
  `#[tokio::main]` async main (the `?` operator) drops the runtime, which
  aborts spawned tasks that have not completed; only a completed
  `join_all` (reached at src/main.rs:58 when no dispatch error occurred)
  guarantees that the worker tasks have run to completion. Accordingly an
  aborted run reports `joined = false` and no worker results. Failure of
  `tx.send` to a worker whose receiver was already dropped is not
  modelled (it is scheduling-dependent); the dispatch model assumes live
  receivers, which is the schedule relevant to the claims below.
-/

/-- The `Domain` record of `main.rs` (`rank`, `domain`, `page_rank`); the
`f64` score is represented by its decimal rendering. -/
structure Domain where
  rank : Nat
  domain : String
  page_rank : String
deriving DecidableEq, Repr

/-- `impl Display for Domain` (src/main.rs:23-31):
`"Domain: {}, Rank = {}, Open Page Rank = {}"`. -/
def Domain.fmt (d : Domain) : String :=
  "Domain: " ++ d.domain ++ ", Rank = " ++ toString d.rank ++
    ", Open Page Rank = " ++ d.page_rank

/-- `const WORKERS: usize = 50` (src/main.rs:33). -/
def WORKERS : Nat := 50

/-- `const CHANNEL_BUFFER: usize = 10` (src/main.rs:34). -/
def CHANNEL_BUFFER : Nat := 10

/-- Outcome of `connector.connect(&domain.domain, stream)`: success, or an
error whose source optionally downcasts to an SSL-layer error carrying a
raw error code (`err.source().and_then(downcast_ref::<SslError>())` and
`src.code().as_raw()`, src/main.rs:76-77). -/
inductive TlsResult where
  | ok : TlsResult
  | err (sslCode : Option Int) : TlsResult
deriving DecidableEq, Repr

/-- Network environment a run executes against: results of the TCP connect
(keyed by the `"<domain>:443"` host string built at src/main.rs:71) and of
the TLS handshake (keyed by the SNI domain name). -/
structure Net where
  tcpConnect : String → Except String Unit
  tlsConnect : String → TlsResult

/-- Result of one iteration of the worker loop body (src/main.rs:71-82):
either the `?` on `StdTcpStream::connect` aborts the whole worker, or the
iteration completes having printed the given stdout/stderr lines. -/
inductive StepResult where
  | abort (e : String)
  | emit (out : List String) (errOut : List String)
deriving DecidableEq, Repr

/-- One worker-loop body iteration for record `d` (src/main.rs:71-82):
TCP connect to `"<domain>:443"` (a failure propagates via `?`), then the
TLS handshake: success prints `[index] ok <fmt>` to stdout; an error
prints `BLOCKED! domain <fmt>` to stderr exactly when the error source
downcasts to an SSL error with raw code 5, and otherwise prints nothing. -/
def recordStep (index : Nat) (net : Net) (d : Domain) : StepResult :=
  match net.tcpConnect (d.domain ++ ":443") with
  | .error e => .abort e
  | .ok _ =>
    match net.tlsConnect d.domain with
    | .ok => .emit ["[" ++ toString index ++ "] ok " ++ d.fmt] []
    | .err c =>
      .emit [] (if c = some 5 then ["BLOCKED! domain " ++ d.fmt] else [])

/-- Observable result of one worker task: lines printed to stdout and
stderr, the records whose loop iteration completed, and the worker's
`Result<()>` return value. -/
structure WorkerResult where
  out : List String
  errOut : List String
  processed : List Domain
  res : Except String Unit
deriving Repr

/-- The `while let Some(domain) = rx.recv().await` loop of
`worker_openssl` (src/main.rs:70-83), run over the queue contents in FIFO
order: an `abort` step returns the error from the worker immediately
(records after it are never dequeued); otherwise output accumulates and
the loop ends with `Ok(())` when the queue is exhausted. -/
def workerLoop (index : Nat) (net : Net) : List Domain → WorkerResult
  | [] => ⟨[], [], [], .ok ()⟩
  | d :: rest =>
    match recordStep index net d with
    | .abort e => ⟨[], [], [], .error e⟩
    | .emit o eo =>
      let r := workerLoop index net rest
      ⟨o ++ r.out, eo ++ r.errOut, d :: r.processed, r.res⟩

/-- `worker_openssl` (src/main.rs:67-86): first
`SslConnector::builder(SslMethod::tls_client())?` (the `builder` argument
is its result; an error returns from the worker before any record is
dequeued), then the receive loop. -/
def worker_openssl (index : Nat) (builder : Except String Unit) (net : Net)
    (queue : List Domain) : WorkerResult :=
  match builder with
  | .error e => ⟨[], [], [], .error e⟩
  | .ok _ => workerLoop index net queue

/-- Append a record to worker `w`'s queue; the queues are modelled as a
function from worker index to FIFO contents (the `workers` vector of
src/main.rs:40-44 indexed by `index % WORKERS`). -/
def enqueueAt (queues : Nat → List Domain) (w : Nat) (d : Domain) :
    Nat → List Domain :=
  fun w2 => if w2 = w then queues w ++ [d] else queues w2

/-- The dispatch loop of `main` (src/main.rs:49-52): for the `i`-th
deserialization result, `result?` aborts on a malformed row, otherwise the
record is sent to worker `i % n`. Returns the final queue contents and
the loop's outcome. -/
def dispatchAux (n : Nat) :
    Nat → (Nat → List Domain) → List (Except String Domain) →
      ((Nat → List Domain) × Except String Unit)
  | _, queues, [] => (queues, .ok ())
  | i, queues, .ok d :: rest =>
      dispatchAux n (i + 1) (enqueueAt queues (i % n) d) rest
  | _, queues, .error e :: _ => (queues, .error e)

/-- The dispatch loop started from empty queues and index 0. -/
def dispatch (n : Nat) (rows : List (Except String Domain)) :
    ((Nat → List Domain) × Except String Unit) :=
  dispatchAux n 0 (fun _ => []) rows

/-- `fn usage()` (src/main.rs:63-65): the two lines the single
`eprintln!("Usage:\n  check-domains <<domains.csv>>")` prints to stderr. -/
def usage : List String :=
  ["Usage:", "  check-domains <<domains.csv>>"]

/-- Observable result of a whole process run: final queue contents,
whether `join_all` (src/main.rs:58) was reached and awaited, the worker
results (discarded by `let _ =` in the source), the concatenated
stdout/stderr lines, and `main`'s `Result<()>` return value. -/
structure ProcessRun where
  queues : Nat → List Domain
  joined : Bool
  workerResults : List WorkerResult
  out : List String
  errOut : List String
  exit : Except String Unit

/-- `main` (src/main.rs:36-61) with `n` workers: spawn the workers, then
either print usage (no CLI argument) or dispatch the deserialized rows;
a dispatch error makes `main` return that error at once — `join_all` is
never reached, so worker completion is not awaited and no worker results
are recorded. Otherwise the senders are dropped (queues close), each
worker drains its queue, `join_all`'s results are discarded and `main`
returns `Ok(())`. `fileArg` is `none` when no CLI argument was given,
otherwise the list of per-row `Deserialize` results read from the CSV. -/
def processRun (n : Nat) (builder : Nat → Except String Unit) (net : Net)
    (fileArg : Option (List (Except String Domain))) : ProcessRun :=
  match fileArg with
  | none =>
    let wrs := (List.range n).map fun i => worker_openssl i (builder i) net []
    { queues := fun _ => []
      joined := true
      workerResults := wrs
      out := (wrs.map WorkerResult.out).flatten
      errOut := usage ++ (wrs.map WorkerResult.errOut).flatten
      exit := .ok () }
  | some rows =>
    let dres := dispatch n rows
    match dres.2 with
    | .error e =>
      { queues := dres.1
        joined := false
        workerResults := []
        out := []
        errOut := []
        exit := .error e }
    | .ok _ =>
      let wrs := (List.range n).map fun i =>
        worker_openssl i (builder i) net (dres.1 i)
      { queues := dres.1
        joined := true
        workerResults := wrs
        out := (wrs.map WorkerResult.out).flatten
        errOut := (wrs.map WorkerResult.errOut).flatten
        exit := .ok () }

/-- Lifecycle events of `main`, in program order. -/
inductive Event where
  | spawnWorker (i : Nat)
  | readRecord (i : Nat)
  | enqueue (w : Nat) (d : Domain)
  | closeQueues
  | joinWorkers
deriving DecidableEq, Repr

/-- Events of the dispatch loop from row index `i` on: each well-formed
row is read then enqueued on worker `i % n`; when the source is exhausted
the senders are dropped (every queue closes) and `join_all` is awaited; a
malformed row ends the trace (neither close-then-join handoff happens as
a completed await). -/
def dispatchTrace (n : Nat) :
    Nat → List (Except String Domain) → List Event
  | _, [] => [Event.closeQueues, Event.joinWorkers]
  | i, .ok d :: rest =>
      Event.readRecord i :: Event.enqueue (i % n) d ::
        dispatchTrace n (i + 1) rest
  | _, .error _ :: _ => []

/-- Event trace of `main` (src/main.rs:36-61): all `n` workers are
spawned (lines 38-44) before the file is opened, then the dispatch loop
runs (or, with no CLI argument, the queues close and `join_all` is
awaited immediately). -/
def mainTrace (n : Nat) (fileArg : Option (List (Except String Domain))) :
    List Event :=
  ((List.range n).map Event.spawnWorker) ++
    match fileArg with
    | none => [Event.closeQueues, Event.joinWorkers]
    | some rows => dispatchTrace n 0 rows

/-- The records of `l` that round-robin dispatch starting at sequence
number `i` assigns to worker `w`, in order. -/
def roundRobinFrom (n : Nat) (i : Nat) (w : Nat) : List Domain → List Domain
  | [] => []
  | d :: rest =>
      (if i % n = w then [d] else []) ++ roundRobinFrom n (i + 1) w rest

/-! ### Test fixtures (concrete records and network environments) -/

/-- A sample record. -/
def sampleDomain : Domain := ⟨1, "example.com", "5.43"⟩

/-- A second sample record. -/
def sampleDomain2 : Domain := ⟨2, "example.org", "4.1"⟩

/-- Environment in which every TCP connect and TLS handshake succeeds. -/
def okNet : Net := ⟨fun _ => Except.ok (), fun _ => TlsResult.ok⟩

/-- Environment in which every TCP connect fails (e.g. DNS resolution
failure inside `StdTcpStream::connect`). -/
def tcpFailNet : Net :=
  ⟨fun _ => Except.error "failed to lookup address information",
   fun _ => TlsResult.ok⟩

/-- Environment in which TCP connects succeed and every TLS handshake
fails with an SSL-layer error of raw code 1 (not the blocked signature). -/
def tlsFailNet : Net :=
  ⟨fun _ => Except.ok (), fun _ => TlsResult.err (some 1)⟩

/-- Environment in which TCP connects succeed and every TLS handshake
fails with the blocked-signature SSL error (raw code 5). -/
def blockedNet : Net :=
  ⟨fun _ => Except.ok (), fun _ => TlsResult.err (some 5)⟩

/-- Environment in which TCP connects succeed and every TLS handshake
fails with an error whose source does not downcast to an SSL error. -/
def nonSslFailNet : Net :=
  ⟨fun _ => Except.ok (), fun _ => TlsResult.err none⟩

/-! ### Helper lemmas about the dispatch loop -/

/-- On an all-well-formed row list, the dispatch loop appends to worker
`w`'s queue exactly the records that round-robin assigns to `w`. -/
theorem dispatchAux_map_ok_fst (n : Nat) (records : List Domain) :
    ∀ (i : Nat) (queues : Nat → List Domain) (w : Nat),
      (dispatchAux n i queues (records.map Except.ok)).1 w
        = queues w ++ roundRobinFrom n i w records := by
  induction records with
  | nil => intro i queues w; simp [dispatchAux, roundRobinFrom]
  | cons d rest ih =>
    intro i queues w
    simp only [List.map_cons, dispatchAux, roundRobinFrom]
    rw [ih]
    by_cases h : i % n = w
    · subst h
      simp [enqueueAt]
    · have hw : w ≠ i % n := fun hc => h hc.symm
      simp [enqueueAt, hw, h]

/-- On an all-well-formed row list, the dispatch loop returns `Ok(())`. -/
theorem dispatchAux_map_ok_snd (n : Nat) (records : List Domain) :
    ∀ (i : Nat) (queues : Nat → List Domain),
      (dispatchAux n i queues (records.map Except.ok)).2 = Except.ok () := by
  induction records with
  | nil => intro i queues; rfl
  | cons d rest ih =>
    intro i queues
    simp only [List.map_cons, dispatchAux]
    exact ih _ _

/-- The round-robin assignment to worker `w` is the filter of the
enumerated records by `index % n = w`. -/
theorem roundRobinFrom_eq_filter (n w : Nat) (l : List Domain) :
    ∀ i, roundRobinFrom n i w l
      = ((List.enumFrom i l).filter (fun p => p.1 % n == w)).map Prod.snd := by
  induction l with
  | nil => intro i; rfl
  | cons d rest ih =>
    intro i
    simp only [roundRobinFrom, List.enumFrom, List.filter_cons]
    by_cases h : i % n = w
    · simp [h, ih]
    · simp [h, ih]

/-- Each record index contributes to exactly one worker: the queue
lengths over all `n` workers sum to the number of records. -/
theorem roundRobinFrom_sum_length (n : Nat) (hn : 0 < n) (l : List Domain) :
    ∀ i, (∑ w ∈ Finset.range n, (roundRobinFrom n i w l).length)
      = l.length := by
  induction l with
  | nil => intro i; simp [roundRobinFrom]
  | cons d rest ih =>
    intro i
    have hmem : i % n ∈ Finset.range n :=
      Finset.mem_range.mpr (Nat.mod_lt _ hn)
    simp only [roundRobinFrom, List.length_append, apply_ite List.length,
      List.length_singleton, List.length_nil, List.length_cons]
    rw [Finset.sum_add_distrib, ih, Finset.sum_ite_eq, if_pos hmem]
    omega

/-- The `k`-th record of `l` is assigned to worker `(i + k) % n` when
dispatch starts at sequence number `i`. -/
theorem roundRobinFrom_get_mem (n : Nat) (l : List Domain) :
    ∀ (i k : Nat) (hk : k < l.length),
      l.get ⟨k, hk⟩ ∈ roundRobinFrom n i ((i + k) % n) l := by
  induction l with
  | nil => intro i k hk; exact absurd hk (by simp)
  | cons d rest ih =>
    intro i k hk
    match k with
    | 0 => simp [roundRobinFrom]
    | k + 1 =>
      have harr : i + 1 + k = i + (k + 1) := by omega
      have hk2 : k < rest.length := by
        simpa using Nat.lt_of_succ_lt_succ hk
      have hmem := ih (i + 1) k hk2
      rw [harr] at hmem
      simp only [roundRobinFrom, List.get]
      exact List.mem_append.mpr (Or.inr hmem)

/-- A malformed row stops the dispatch loop with that error; the queues
are exactly those accumulated over the well-formed prefix. -/
theorem dispatchAux_abort (n : Nat) (pre : List Domain) :
    ∀ (i : Nat) (queues : Nat → List Domain) (e : String)
      (rest : List (Except String Domain)),
      dispatchAux n i queues (pre.map Except.ok ++ Except.error e :: rest)
        = ((dispatchAux n i queues (pre.map Except.ok)).1, Except.error e) := by
  induction pre with
  | nil => intro i queues e rest; rfl
  | cons d ds ih =>
    intro i queues e rest
    simp only [List.map_cons, List.cons_append, dispatchAux]
    exact ih _ _ _ _

/-! ### Claim theorems -/

/-- C1: with `n ≥ 1` workers and `M` well-formed records, worker `w`'s
queue receives exactly the records whose 0-based source index `i`
satisfies `i % n = w`, in source order; in particular the `i`-th record is
delivered to worker `i % n`, and the queue lengths over the `n` workers
sum to `M`, so every record is delivered to exactly one worker's queue
exactly once. -/
theorem round_robin_assignment (n : Nat) (hn : 0 < n)
    (records : List Domain) :
    (∀ w, (dispatch n (records.map Except.ok)).1 w
      = (((records.enum).filter fun p => p.1 % n == w).map Prod.snd))
    ∧ (∀ i, (hi : i < records.length) →
        records.get ⟨i, hi⟩ ∈ (dispatch n (records.map Except.ok)).1 (i % n))
    ∧ (∑ w ∈ Finset.range n,
        ((dispatch n (records.map Except.ok)).1 w).length)
      = records.length := by
  refine ⟨?_, ?_, ?_⟩
  · intro w
    rw [dispatch, dispatchAux_map_ok_fst, roundRobinFrom_eq_filter]
    simp [List.enum]
  · intro i hi
    rw [dispatch, dispatchAux_map_ok_fst]
    have h := roundRobinFrom_get_mem n records 0 i hi
    rw [Nat.zero_add] at h
    simpa using h
  · have h : ∀ w, (dispatch n (records.map Except.ok)).1 w
        = roundRobinFrom n 0 w records := by
      intro w
      rw [dispatch, dispatchAux_map_ok_fst]
      simp
    calc (∑ w ∈ Finset.range n,
            ((dispatch n (records.map Except.ok)).1 w).length)
        = ∑ w ∈ Finset.range n, (roundRobinFrom n 0 w records).length := by
          exact Finset.sum_congr rfl fun w _ => by rw [h w]
      _ = records.length := roundRobinFrom_sum_length n hn records 0

/-- Witness for C1 at `n = 2` and three records: the record with source
index 1 is delivered to worker `1 % 2`. -/
theorem round_robin_assignment_witness :
    sampleDomain2 ∈ (dispatch 2
        ([sampleDomain, sampleDomain2, sampleDomain].map Except.ok)).1
      (1 % 2) :=
  (round_robin_assignment 2 (by decide)
    [sampleDomain, sampleDomain2, sampleDomain]).2.1 1 (by decide)

/-- C4: a malformed row makes the dispatch loop return that row's error
immediately: no record after the malformed row is dispatched to any
worker — the queues are exactly those of the well-formed prefix — and
there is no skip-and-continue behaviour. -/
theorem malformed_row_aborts (n : Nat) (pre : List Domain) (e : String)
    (rest : List (Except String Domain)) :
    (dispatch n (pre.map Except.ok ++ Except.error e :: rest)).2
      = Except.error e
    ∧ (dispatch n (pre.map Except.ok ++ Except.error e :: rest)).1
      = (dispatch n (pre.map Except.ok)).1 := by
  rw [dispatch, dispatch, dispatchAux_abort]
  exact ⟨rfl, rfl⟩

/-- C2 counterexample: a queue of two records in an environment where the
TCP connect (which performs address resolution) fails: the worker loop
terminates at the first record with an error — `processed = []` and the
second record is never dequeued — refuting that DNS/connect failures
never terminate the worker loop early. -/
theorem worker_tcp_error_stops_loop_cex :
    workerLoop 0 tcpFailNet [sampleDomain, sampleDomain2]
      = ⟨[], [], [],
          Except.error "failed to lookup address information"⟩ := rfl

/-- C2 (amended): errors raised by the TLS handshake itself (certificate
or protocol failures, including the blocked signature) are captured
inside the probe and converted into a classification, and never
terminate the worker loop; but a TCP connect failure (which includes DNS
resolution failure) propagates via `?` and ends the worker task early.
When every record's TCP connect succeeds, the worker with a successfully
built TLS configuration processes its entire queue and returns `Ok(())`
— its only exit path is the queue being closed and drained. -/
theorem handshake_errors_contained (index : Nat) (net : Net)
    (queue : List Domain)
    (htcp : ∀ d ∈ queue, net.tcpConnect (d.domain ++ ":443")
      = Except.ok ()) :
    (worker_openssl index (Except.ok ()) net queue).processed = queue
    ∧ (worker_openssl index (Except.ok ()) net queue).res
      = Except.ok () := by
  simp only [worker_openssl]
  induction queue with
  | nil => exact ⟨rfl, rfl⟩
  | cons d rest ih =>
    have hd := htcp d (List.mem_cons_self d rest)
    have hr := ih fun x hx => htcp x (List.mem_cons_of_mem d hx)
    cases htls : net.tlsConnect d.domain with
    | ok =>
      simp only [workerLoop, recordStep, hd, htls]
      exact ⟨by rw [List.cons_eq_cons]; exact ⟨rfl, hr.1⟩, hr.2⟩
    | err c =>
      simp only [workerLoop, recordStep, hd, htls]
      exact ⟨by rw [List.cons_eq_cons]; exact ⟨rfl, hr.1⟩, hr.2⟩

/-- Witness for C2 (amended): one record, TCP connect succeeds, handshake
fails with a non-blocked SSL error — the worker still processes the whole
queue and returns `Ok(())`. -/
theorem handshake_errors_contained_witness :
    (worker_openssl 0 (Except.ok ()) tlsFailNet [sampleDomain]).processed
      = [sampleDomain]
    ∧ (worker_openssl 0 (Except.ok ()) tlsFailNet [sampleDomain]).res
      = Except.ok () :=
  handshake_errors_contained 0 tlsFailNet [sampleDomain] fun _ _ => rfl

/-- C3: for a record whose TCP connect succeeded and whose TLS handshake
failed, the worker emits the Blocked line exactly when the error source
downcasts to an SSL-layer error whose raw code equals the
blocked-signature value 5 (a protocol-layer code, not a string match on a
rendered message); a handshake failure not matching that signature
produces no output line at all. -/
theorem blocked_classification (index : Nat) (net : Net) (d : Domain)
    (c : Option Int)
    (htcp : net.tcpConnect (d.domain ++ ":443") = Except.ok ())
    (htls : net.tlsConnect d.domain = TlsResult.err c) :
    recordStep index net d
      = StepResult.emit []
          (if c = some 5 then ["BLOCKED! domain " ++ d.fmt] else [])
    ∧ (c ≠ some 5 → recordStep index net d = StepResult.emit [] []) := by
  constructor
  · simp [recordStep, htcp, htls]
  · intro hc
    simp [recordStep, htcp, htls, hc]

/-- Witness for C3: a handshake failure with raw SSL code 5 yields the
Blocked stderr line. -/
theorem blocked_classification_witness :
    recordStep 3 blockedNet sampleDomain
      = StepResult.emit []
          (if (some 5 : Option Int) = some 5
            then ["BLOCKED! domain " ++ sampleDomain.fmt] else [])
    ∧ ((some 5 : Option Int) ≠ some 5 →
        recordStep 3 blockedNet sampleDomain = StepResult.emit [] []) :=
  blocked_classification 3 blockedNet sampleDomain (some 5) rfl rfl

/-- C10: a TLS handshake error whose source does not downcast to an
SSL-layer error, or whose raw SSL code differs from 5, produces no output
line on either stream for that record, and the worker proceeds to the
rest of its queue unchanged. -/
theorem non_signature_failure_skipped (index : Nat) (net : Net)
    (d : Domain) (rest : List Domain) (c : Option Int)
    (htcp : net.tcpConnect (d.domain ++ ":443") = Except.ok ())
    (htls : net.tlsConnect d.domain = TlsResult.err c)
    (hc : c ≠ some 5) :
    workerLoop index net (d :: rest)
      = { out := (workerLoop index net rest).out
          errOut := (workerLoop index net rest).errOut
          processed := d :: (workerLoop index net rest).processed
          res := (workerLoop index net rest).res } := by
  simp [workerLoop, recordStep, htcp, htls, hc]

/-- Witness for C10: an error not downcastable to an SSL error (code
`none`) at the head of a two-record queue — no output for it, and the
loop continues with the second record. -/
theorem non_signature_failure_skipped_witness :
    workerLoop 1 nonSslFailNet [sampleDomain, sampleDomain2]
      = { out := (workerLoop 1 nonSslFailNet [sampleDomain2]).out
          errOut := (workerLoop 1 nonSslFailNet [sampleDomain2]).errOut
          processed :=
            sampleDomain :: (workerLoop 1 nonSslFailNet [sampleDomain2]).processed
          res := (workerLoop 1 nonSslFailNet [sampleDomain2]).res } :=
  non_signature_failure_skipped 1 nonSslFailNet sampleDomain
    [sampleDomain2] none rfl rfl (by decide)

/-- A worker given an empty queue prints nothing, whether or not its TLS
configuration was built successfully. -/
theorem worker_openssl_nil_quiet (index : Nat) (b : Except String Unit)
    (net : Net) :
    (worker_openssl index b net []).out = []
    ∧ (worker_openssl index b net []).errOut = [] := by
  cases b <;> exact ⟨rfl, rfl⟩

/-- Flattening a map whose every image is `[]` yields `[]`. -/
theorem flatten_map_eq_nil {α β : Type} (f : β → List α) (l : List β)
    (h : ∀ x ∈ l, f x = []) : (l.map f).flatten = [] := by
  induction l with
  | nil => rfl
  | cons a as ih =>
    have ha := h a (List.mem_cons_self a as)
    have has := ih fun x hx => h x (List.mem_cons_of_mem a hx)
    simp [ha, has]

/-- C5 counterexample: with 2 workers and an input consisting of one
well-formed record followed by a malformed row, the record sits on worker
0's queue when the fatal error occurs, yet the run ends with
`joined = false` and an empty worker-result list: `join_all` was never
awaited, so the already-enqueued record's processing is not awaited
before the process exits — refuting that such records are still fully
processed. -/
theorem fatal_error_drain_cex :
    (processRun 2 (fun _ => Except.ok ()) okNet
        (some [Except.ok sampleDomain, Except.error "malformed row"])).queues 0
      = [sampleDomain]
    ∧ (processRun 2 (fun _ => Except.ok ()) okNet
        (some [Except.ok sampleDomain, Except.error "malformed row"])).joined
      = false
    ∧ (processRun 2 (fun _ => Except.ok ()) okNet
        (some [Except.ok sampleDomain, Except.error "malformed row"])).workerResults
      = [] :=
  ⟨rfl, rfl, rfl⟩

/-- C5 (amended): after a fatal dispatcher error, `main` returns the
error immediately: no further record is admitted — the queues are exactly
those of the well-formed prefix — but `join_all` is never reached, so the
run does not await the workers (`joined = false`, no worker results);
already-enqueued records are not guaranteed to be processed before the
process exits. -/
theorem fatal_error_skips_join (n : Nat)
    (builder : Nat → Except String Unit) (net : Net) (pre : List Domain)
    (e : String) (rest : List (Except String Domain)) :
    (processRun n builder net
        (some (pre.map Except.ok ++ Except.error e :: rest))).exit
      = Except.error e
    ∧ (processRun n builder net
        (some (pre.map Except.ok ++ Except.error e :: rest))).joined
      = false
    ∧ (processRun n builder net
        (some (pre.map Except.ok ++ Except.error e :: rest))).workerResults
      = []
    ∧ (processRun n builder net
        (some (pre.map Except.ok ++ Except.error e :: rest))).queues
      = (dispatch n (pre.map Except.ok)).1 := by
  have h := dispatchAux_abort n pre 0 (fun _ => []) e rest
  simp only [processRun, dispatch] at *
  rw [h]
  exact ⟨rfl, rfl, rfl, rfl⟩

/-- C6: the exact result lines. `Domain`'s `Display` renders
`Domain: <name>, Rank = <rank>, Open Page Rank = <score>` with the fields
taken verbatim from the record; a successful handshake emits exactly one
stdout line `[<index>] ok <display>` and a blocked detection emits
exactly one stderr line `BLOCKED! domain <display>`. -/
theorem result_line_format (index : Nat) (net : Net) (d : Domain)
    (htcp : net.tcpConnect (d.domain ++ ":443") = Except.ok ()) :
    d.fmt = "Domain: " ++ d.domain ++ ", Rank = " ++ toString d.rank ++
        ", Open Page Rank = " ++ d.page_rank
    ∧ (net.tlsConnect d.domain = TlsResult.ok →
        recordStep index net d
          = StepResult.emit
              ["[" ++ toString index ++ "] ok " ++ d.fmt] [])
    ∧ (net.tlsConnect d.domain = TlsResult.err (some 5) →
        recordStep index net d
          = StepResult.emit [] ["BLOCKED! domain " ++ d.fmt]) := by
  refine ⟨rfl, ?_, ?_⟩
  · intro h
    simp [recordStep, htcp, h]
  · intro h
    simp [recordStep, htcp, h]

/-- Witness for C6 at a concrete record and a succeeding environment. -/
theorem result_line_format_witness :
    sampleDomain.fmt = "Domain: " ++ sampleDomain.domain ++ ", Rank = " ++
        toString sampleDomain.rank ++ ", Open Page Rank = " ++
        sampleDomain.page_rank
    ∧ (okNet.tlsConnect sampleDomain.domain = TlsResult.ok →
        recordStep 4 okNet sampleDomain
          = StepResult.emit
              ["[" ++ toString 4 ++ "] ok " ++ sampleDomain.fmt] [])
    ∧ (okNet.tlsConnect sampleDomain.domain = TlsResult.err (some 5) →
        recordStep 4 okNet sampleDomain
          = StepResult.emit [] ["BLOCKED! domain " ++ sampleDomain.fmt]) :=
  result_line_format 4 okNet sampleDomain rfl

/-- C7 counterexample: every worker's TLS-configuration construction
fails, yet with an empty input the run exits with `Ok(())` because
`let _ = join_all(...)` discards the worker results — refuting that the
process terminates with a nonzero-equivalent failure. -/
theorem tls_config_failure_exit_cex :
    (processRun 50 (fun _ => Except.error "ssl builder error") okNet
        (some [])).exit = Except.ok ()
    ∧ ((processRun 50 (fun _ => Except.error "ssl builder error") okNet
        (some [])).workerResults.map WorkerResult.res)
      = List.replicate 50 (Except.error "ssl builder error") :=
  ⟨rfl, rfl⟩

/-- C7 (amended): a TLS-configuration construction failure terminates
only the affected worker — immediately, with no records processed and the
builder's error as its result — while `main` discards worker results, so
any run whose dispatch loop succeeds exits `Ok(())` regardless of such
failures; the process does not terminate with a failure on their
account. -/
theorem tls_config_failure_local (index : Nat) (net : Net)
    (queue : List Domain) (e : String) :
    worker_openssl index (Except.error e) net queue
      = ⟨[], [], [], Except.error e⟩
    ∧ ∀ (n : Nat) (builder : Nat → Except String Unit)
        (records : List Domain),
        (processRun n builder net (some (records.map Except.ok))).exit
          = Except.ok () := by
  constructor
  · rfl
  · intro n builder records
    have h2 := dispatchAux_map_ok_snd n records 0 (fun _ => [])
    simp only [processRun, dispatch]
    rw [h2]

/-- C8: with no CLI argument the run prints exactly the two usage lines
to the diagnostic stream, prints nothing to stdout, and `main` returns
`Ok(())` — a no-op run, not a fatal condition. -/
theorem missing_argument_usage (n : Nat)
    (builder : Nat → Except String Unit) (net : Net) :
    (processRun n builder net none).exit = Except.ok ()
    ∧ (processRun n builder net none).errOut = usage
    ∧ usage.length = 2
    ∧ (processRun n builder net none).out = [] := by
  refine ⟨rfl, ?_, rfl, ?_⟩
  · simp only [processRun]
    rw [List.map_map,
      flatten_map_eq_nil
        (WorkerResult.errOut ∘ fun i => worker_openssl i (builder i) net [])
        (List.range n)
        (fun i _ => (worker_openssl_nil_quiet i (builder i) net).2)]
    simp
  · simp only [processRun]
    rw [List.map_map,
      flatten_map_eq_nil
        (WorkerResult.out ∘ fun i => worker_openssl i (builder i) net [])
        (List.range n)
        (fun i _ => (worker_openssl_nil_quiet i (builder i) net).1)]

/-- On an all-well-formed row list the dispatch trace is reads and
enqueues followed by closing all queues and then awaiting the workers. -/
theorem dispatchTrace_map_ok (n : Nat) (records : List Domain) :
    ∀ i, ∃ body, dispatchTrace n i (records.map Except.ok)
        = body ++ [Event.closeQueues, Event.joinWorkers]
      ∧ ∀ e ∈ body,
          (∃ j, e = Event.readRecord j) ∨ ∃ w d, e = Event.enqueue w d := by
  induction records with
  | nil =>
    intro i
    exact ⟨[], rfl, by simp⟩
  | cons d rest ih =>
    intro i
    obtain ⟨body, hb, hall⟩ := ih (i + 1)
    refine ⟨Event.readRecord i :: Event.enqueue (i % n) d :: body, ?_, ?_⟩
    · simp [dispatchTrace, hb]
    · intro e he
      rcases List.mem_cons.mp he with rfl | he2
      · exact Or.inl ⟨i, rfl⟩
      rcases List.mem_cons.mp he2 with rfl | he3
      · exact Or.inr ⟨i % n, d, rfl⟩
      exact hall e he3

/-- C9: all `n` (queue, task) pairs are created before any record is read
— the trace is the `n` spawn events, then only read/enqueue events, then
`closeQueues` (every sender dropped once the source is exhausted)
followed by `joinWorkers` as the final event, so the run concludes only
after all worker tasks have terminated. A zero-record run reaches
`join_all` with all `n` workers terminating cleanly (`Ok(())`) and no
output lines. -/
theorem pool_lifecycle (n : Nat) (builder : Nat → Except String Unit)
    (net : Net) (records : List Domain)
    (hb : ∀ i, builder i = Except.ok ()) :
    (∃ body, mainTrace n (some (records.map Except.ok))
        = ((List.range n).map Event.spawnWorker) ++ body
          ++ [Event.closeQueues, Event.joinWorkers]
      ∧ ∀ e ∈ body,
          (∃ j, e = Event.readRecord j) ∨ ∃ w d, e = Event.enqueue w d)
    ∧ (processRun n builder net (some [])).joined = true
    ∧ (processRun n builder net (some [])).out = []
    ∧ (processRun n builder net (some [])).errOut = []
    ∧ (processRun n builder net (some [])).workerResults.length = n
    ∧ ∀ r ∈ (processRun n builder net (some [])).workerResults,
        r.res = Except.ok () := by
  refine ⟨?_, rfl, ?_, ?_, ?_, ?_⟩
  · obtain ⟨body, h1, h2⟩ := dispatchTrace_map_ok n records 0
    exact ⟨body, by rw [mainTrace, h1, List.append_assoc], h2⟩
  · simp only [processRun, dispatch, dispatchAux]
    rw [List.map_map,
      flatten_map_eq_nil
        (WorkerResult.out ∘ fun i => worker_openssl i (builder i) net [])
        (List.range n)
        (fun i _ => (worker_openssl_nil_quiet i (builder i) net).1)]
  · simp only [processRun, dispatch, dispatchAux]
    rw [List.map_map,
      flatten_map_eq_nil
        (WorkerResult.errOut ∘ fun i => worker_openssl i (builder i) net [])
        (List.range n)
        (fun i _ => (worker_openssl_nil_quiet i (builder i) net).2)]
  · simp [processRun, dispatch, dispatchAux]
  · intro r hr
    simp only [processRun, dispatch, dispatchAux, List.mem_map] at hr
    obtain ⟨i, _, rfl⟩ := hr
    rw [hb i]
    rfl

/-- Witness for C9 at `n = 2`, one record, all builders succeeding. -/
theorem pool_lifecycle_witness :
    (∃ body, mainTrace 2 (some ([sampleDomain].map Except.ok))
        = ((List.range 2).map Event.spawnWorker) ++ body
          ++ [Event.closeQueues, Event.joinWorkers]
      ∧ ∀ e ∈ body,
          (∃ j, e = Event.readRecord j) ∨ ∃ w d, e = Event.enqueue w d)
    ∧ (processRun 2 (fun _ => Except.ok ()) okNet (some [])).joined = true
    ∧ (processRun 2 (fun _ => Except.ok ()) okNet (some [])).out = []
    ∧ (processRun 2 (fun _ => Except.ok ()) okNet (some [])).errOut = []
    ∧ (processRun 2 (fun _ => Except.ok ()) okNet
        (some [])).workerResults.length = 2
    ∧ ∀ r ∈ (processRun 2 (fun _ => Except.ok ()) okNet
        (some [])).workerResults,
        r.res = Except.ok () :=
  pool_lifecycle 2 (fun _ => Except.ok ()) okNet [sampleDomain]
    fun _ => rfl
